import Mathlib

/-!
Shallow embedding of the MindlessGen orchestration core
(src/src/mindlessgen/generator/main.py) and of the charge/multiplicity
assigner, together with theorems checking the specification's claims.

Molecules are opaque to the coordinator, so all definitions are
parametric in a type M of molecules.  External effects (prints,
warnings, pool creation, engine setup) are recorded as explicit event
traces; the outcome of the external QM engines is an input oracle.
-/

namespace MindlessGen

/-- Fields of config.general read (and, for verbosity, written) by the
generator driver. -/
structure GeneralConfig where
  verbosity : Int
  print_config : Bool
  postprocess : Bool
  parallel : Nat
  num_molecules : Nat
  max_cycles : Nat
deriving DecidableEq, Repr

/-- The configuration object passed to the generator; only the
general section is consulted by the driver logic modelled here. -/
structure ConfigManager where
  general : GeneralConfig
deriving DecidableEq, Repr

/-- Observable actions of one cycle worker (single_molecule_generator):
generating a random molecule, running the iterative optimization,
running the postprocessing pass, and setting the stop event. -/
inductive WorkerStep where
  | generate
  | optimize
  | postprocessCall
  | setSignal
deriving DecidableEq, Repr

/-- Environment of one cycle worker invocation: the molecule produced by
generate_random_molecule, oracles giving the outcome of
iterative_optimization and postprocess_mol (Except.error models a raised
RuntimeError), and the two observations of the shared stop event (at
entry, line 131, and at the success point, line 186). -/
structure WorkerEnv (M : Type) where
  genMol : M
  optimizeResult : M → Except String M
  postprocessResult : M → Except String M
  stopSetAtEntry : Bool
  stopSetAtSuccess : Bool

/-- Embedding of single_molecule_generator (main.py lines 121-192):
returns the value handed back to the pool together with the trace of
steps performed.  A caught RuntimeError in optimization or
postprocessing yields none; at the success point the worker returns its
molecule only if the stop event was not already observed set. -/
def single_molecule_generator {M : Type} (config : ConfigManager) (env : WorkerEnv M) :
    Option M × List WorkerStep :=
  if env.stopSetAtEntry then
    (none, [])
  else
    match env.optimizeResult env.genMol with
    | Except.error _ => (none, [WorkerStep.generate, WorkerStep.optimize])
    | Except.ok om =>
      if config.general.postprocess then
        match env.postprocessResult om with
        | Except.error _ =>
            (none, [WorkerStep.generate, WorkerStep.optimize, WorkerStep.postprocessCall])
        | Except.ok pm =>
            if env.stopSetAtSuccess then
              (none, [WorkerStep.generate, WorkerStep.optimize, WorkerStep.postprocessCall])
            else
              (some pm, [WorkerStep.generate, WorkerStep.optimize,
                WorkerStep.postprocessCall, WorkerStep.setSignal])
      else
        if env.stopSetAtSuccess then
          (none, [WorkerStep.generate, WorkerStep.optimize])
        else
          (some om, [WorkerStep.generate, WorkerStep.optimize, WorkerStep.setSignal])

/-- Status of one worker inside the fine-grained model of the success
point (main.py lines 186-192): it has not yet executed the is_set test,
it has executed the test and remembers the value it saw, or it has
finished (won = true means it returned its molecule, won = false means
it returned none). -/
inductive WStatus where
  | pending
  | checked (sawSet : Bool)
  | done (won : Bool)
deriving DecidableEq, Repr

/-- Shared state of the success-point race: the stop event flag plus the
status of every worker in the batch. -/
structure RaceState where
  flag : Bool
  workers : List WStatus
deriving DecidableEq, Repr

/-- One scheduler step of the success-point race: worker w executes its
next operation.  The is_set test (line 186) and the set (line 187) are
two separate operations, exactly as in the source. -/
def raceStep (s : RaceState) (w : Nat) : RaceState :=
  match s.workers.getD w (WStatus.done false) with
  | WStatus.pending => { s with workers := s.workers.set w (WStatus.checked s.flag) }
  | WStatus.checked sawSet =>
      if sawSet then { s with workers := s.workers.set w (WStatus.done false) }
      else { flag := true, workers := s.workers.set w (WStatus.done true) }
  | WStatus.done _ => s

/-- Run the success-point race under a given interleaving schedule. -/
def raceRun (s : RaceState) (sched : List Nat) : RaceState :=
  sched.foldl raceStep s

/-- Whether a worker status is a finished worker that returned a
non-none result. -/
def isWinner : WStatus → Bool
  | WStatus.done true => true
  | _ => false

/-- Number of workers of the batch that returned a non-none result. -/
def winners (s : RaceState) : Nat :=
  s.workers.countP isWinner

/-- The success-point block executed by each worker in turn without
interleaving (each worker runs its is_set test and, if the flag was
unset, the set, as one uninterrupted block): returns the final flag and
the per-worker results. -/
def successPointSeq {M : Type} (flag : Bool) : List M → Bool × List (Option M)
  | [] => (flag, [])
  | m :: ms =>
    if flag then
      let r := successPointSeq flag ms
      (r.1, none :: r.2)
    else
      let r := successPointSeq true ms
      (r.1, some m :: r.2)

/-- Embedding of mp.Pool.starmap (main.py lines 86-93): results are
returned in submission (cycle-index) order.  The finishOrder argument
records the wall-clock order in which workers completed; starmap's
output does not depend on it, which the definition makes explicit by
ignoring it. -/
def pool_starmap {M : Type} (finishOrder : List Nat) (res : Nat → Option M)
    (maxCycles : Nat) : List (Option M) :=
  let _ := finishOrder
  (List.range maxCycles).map res

/-- Embedding of the result-selection loop (main.py lines 101-107):
scan the results in cycle-index order and take the first non-None one,
returning (cycles_needed, molecule) with cycles_needed = index + 1. -/
def firstSuccess {M : Type} : List (Option M) → Option (Nat × M)
  | [] => none
  | none :: rs => (firstSuccess rs).map (fun p => (p.1 + 1, p.2))
  | some m :: _ => some (1, m)

/-- The message of the RuntimeError raised when all cycles of one
molecule target fail (main.py lines 110-112). -/
def exhausted_error_message (molcount : Nat) : String :=
  "Molecule generation including optimization (and postprocessing) failed for all cycles for molecule "
    ++ toString (molcount + 1) ++ "."

/-- Whether pat occurs as a contiguous sub-sequence starting at the head
of the second list. -/
def matchesAt {α : Type} [BEq α] : List α → List α → Bool
  | [], _ => true
  | _ :: _, [] => false
  | p :: ps, c :: cs => p == c && matchesAt ps cs

/-- Whether pat occurs as a contiguous sub-sequence anywhere in the
second list. -/
def occursIn {α : Type} [BEq α] (pat : List α) : List α → Bool
  | [] => pat.isEmpty
  | c :: cs => matchesAt pat (c :: cs) || occursIn pat cs

/-- Whether the string pat occurs inside the string s. -/
def containsStr (s pat : String) : Bool :=
  occursIn pat.toList s.toList

/-- Observable events of one generator run, in program order. -/
inductive GenEvent where
  | printedHeader
  | printedConfig
  | engineSetup (forPostprocess : Bool)
  | clampWarning
  | verbosityWarning
  | verbositySetTo (v : Int)
  | poolCreated (degree : Nat) (target : Nat) (verbosityInEffect : Int)
  | verbosityRestored (v : Int)
deriving DecidableEq, Repr

/-- Whether an event is the excess-parallelism clamping warning. -/
def isClampWarning : GenEvent → Bool
  | GenEvent.clampWarning => true
  | _ => false

/-- Outcome of processing one molecule target (main.py lines 74-116
minus the acceptance check): the verbosity field of the shared config
after the batch, the events emitted, and the accepted
(cycles_needed, molecule) pair if any worker returned a result. -/
structure BatchOut (M : Type) where
  verbosityAfter : Int
  events : List GenEvent
  accepted : Option (Nat × M)
deriving Repr

/-- One molecule-target batch: save and zero the verbosity field when
running parallel with verbosity enabled (lines 77-82), run the pool
(lines 86-93), restore verbosity (lines 97-99), and select the first
non-None result (lines 101-107). -/
def runBatch {M : Type} (numCores : Nat) (v : Int) (maxCycles : Nat)
    (finishOrder : List Nat) (res : Nat → Option M) (target : Nat) : BatchOut M :=
  let backup : Option Int := if numCores > 1 ∧ v > 0 then some v else none
  let vDuring : Int := match backup with
    | some _ => 0
    | none => v
  let setEvents : List GenEvent := match backup with
    | some _ => [GenEvent.verbositySetTo 0]
    | none => []
  let results := pool_starmap finishOrder res maxCycles
  let vAfter : Int := match backup with
    | some b => b
    | none => vDuring
  let restoreEvents : List GenEvent := match backup with
    | some b => [GenEvent.verbosityRestored b]
    | none => []
  { verbosityAfter := vAfter,
    events := setEvents ++ [GenEvent.poolCreated numCores target vDuring] ++ restoreEvents,
    accepted := firstSuccess results }

/-- The molecule-target loop (main.py lines 73-116), processing n
targets starting at index t with current config verbosity v: returns the
collected molecules or the fatal exhausted error, the emitted events,
and the final value of the config verbosity field. -/
def runTargets {M : Type} (numCores : Nat) (maxCycles : Nat)
    (finishOrders : Nat → List Nat) (res : Nat → Nat → Option M) :
    Int → Nat → Nat → Except String (List M) × List GenEvent × Int
  | v, _t, 0 => (Except.ok [], [], v)
  | v, t, n + 1 =>
    let b := runBatch numCores v maxCycles (finishOrders t) (res t) t
    match b.accepted with
    | none => (Except.error (exhausted_error_message t), b.events, b.verbosityAfter)
    | some p =>
      let rest := runTargets numCores maxCycles finishOrders res b.verbosityAfter (t + 1) n
      (rest.1.map (fun ms => p.2 :: ms), b.events ++ rest.2.1, rest.2.2)

/-- What one generator run produces: the returned value or the fatal
error (Except.error models a raised RuntimeError; the returned pair is
(optimized_molecules or None, exit code 0)), the event trace, and the
final value of the config verbosity field. -/
structure GenOutput (M : Type) where
  result : Except String (Option (List M) × Nat)
  events : List GenEvent
  finalVerbosity : Int
deriving Repr

/-- Embedding of generator (main.py lines 18-118).  cpu_count is the
available hardware concurrency (mp.cpu_count()); res t c is the value
worker (target t, cycle c) hands back to the pool; finishOrders t is the
wall-clock completion order of target t's workers (ignored by starmap). -/
def generator {M : Type} (config : ConfigManager) (cpu_count : Nat)
    (finishOrders : Nat → List Nat) (res : Nat → Nat → Option M) : GenOutput M :=
  let g := config.general
  let headerEvents : List GenEvent :=
    if g.verbosity > 0 then [GenEvent.printedHeader] else []
  if g.print_config then
    { result := Except.ok (none, 0),
      events := headerEvents ++ [GenEvent.printedConfig],
      finalVerbosity := g.verbosity }
  else
    let setupEvents : List GenEvent :=
      [GenEvent.engineSetup false] ++
        (if g.postprocess then [GenEvent.engineSetup true] else [])
    let printCfgEvents : List GenEvent :=
      if g.verbosity > 0 then [GenEvent.printedConfig] else []
    let num_cores := min cpu_count g.parallel
    let clampEvents : List GenEvent :=
      if g.parallel > cpu_count then [GenEvent.clampWarning] else []
    let verbEvents : List GenEvent :=
      if num_cores > 1 ∧ g.verbosity > 0 then [GenEvent.verbosityWarning] else []
    let loop := runTargets num_cores g.max_cycles finishOrders res g.verbosity 0 g.num_molecules
    { result := loop.1.map (fun ms => (some ms, 0)),
      events := headerEvents ++ setupEvents ++ printCfgEvents ++ clampEvents
        ++ verbEvents ++ loop.2.1,
      finalVerbosity := loop.2.2 }

/-- Modelled from the spec: the lanthanide block test of
set_random_charge (mindlessgen.molecules.miscellaneous, whose source is
not in the repository snapshot; only its test is).  Atoms use 0-based
indexing (test file line 10), so the lanthanides La..Lu (atomic numbers
57-71) are indices 56-70. -/
def isLanthanide (a : Nat) : Bool :=
  decide (56 ≤ a) && decide (a ≤ 70)

/-- Modelled from the spec: the fixed lookup table mapping a lanthanide
(0-based index) to its typical unpaired-electron count, rising from
La(56) → 0 through Ce(57) → 1 and Nd(59) → 3 to Gd(63) → 7 and falling
back to Yb(69) → 1, matching every value the spec and the test record. -/
def lanthanide_uhf_table (a : Nat) : Nat :=
  min (a - 56) (70 - a)

/-- Total electron count of a 0-based atomic-index sequence: atom index
a stands for atomic number a + 1, hence a + 1 electrons. -/
def nel (ati : List Nat) : Nat :=
  (ati.map (fun a => a + 1)).sum

/-- Modelled from the spec: set_random_charge
(mindlessgen.molecules.miscellaneous, source missing from the snapshot;
only src/test/test_molecules/test_miscellaneous.py exercises it).
Lanthanide branch: unpaired electrons from the lookup table, charge the
0-or-1 value making (electrons − charge − uhf) even.  Standard branch:
uhf 0 and a charge drawn from {−1, +1} (odd electron count) or
{−2, 0, +2} (even electron count); the random draw is injected as the
seed argument. -/
def set_random_charge (ati : List Nat) (seed : Nat) : Int × Nat :=
  let n := nel ati
  if ati.any isLanthanide then
    let uhf := ((ati.filter isLanthanide).map lanthanide_uhf_table).sum
    let charge : Int := if ((n : Int) - (uhf : Int)) % 2 = 0 then 0 else 1
    (charge, uhf)
  else
    let candidates : List Int := if n % 2 = 1 then [-1, 1] else [-2, 0, 2]
    (candidates.getD (seed % candidates.length) 0, 0)

/-- A batch in which no worker has run its success-point block yet:
stop event unset, two workers pending. -/
def raceInit : RaceState :=
  { flag := false, workers := [WStatus.pending, WStatus.pending] }

/-- A configuration with every toggle off: sequential, quiet, no
postprocessing, one molecule, one cycle. -/
def cfgPlain : ConfigManager :=
  { general :=
    { verbosity := 0, print_config := false, postprocess := false,
      parallel := 1, num_molecules := 1, max_cycles := 1 } }

/-- The plain configuration with postprocessing enabled. -/
def cfgPost : ConfigManager :=
  { general :=
    { verbosity := 0, print_config := false, postprocess := true,
      parallel := 1, num_molecules := 1, max_cycles := 1 } }

/-- Worker environment whose stop event is already set at entry. -/
def envStopped : WorkerEnv Nat :=
  { genMol := 0, optimizeResult := fun m => Except.ok m,
    postprocessResult := fun m => Except.ok m,
    stopSetAtEntry := true, stopSetAtSuccess := false }

/-- Worker environment whose optimization step raises a RuntimeError. -/
def envOptFails : WorkerEnv Nat :=
  { genMol := 0, optimizeResult := fun _ => Except.error "refinement failed",
    postprocessResult := fun m => Except.ok m,
    stopSetAtEntry := false, stopSetAtSuccess := false }

/-- Worker environment whose postprocessing step raises a RuntimeError
after a successful optimization. -/
def envPostFails : WorkerEnv Nat :=
  { genMol := 0, optimizeResult := fun _ => Except.ok 7,
    postprocessResult := fun _ => Except.error "postprocessing failed",
    stopSetAtEntry := false, stopSetAtSuccess := false }

/-- Under the sequential success-point discipline, a batch entered with
the flag already set produces only none results. -/
lemma successPointSeq_true_none {M : Type} (ms : List M) :
    ((successPointSeq true ms).2.countP Option.isSome) = 0 := by
  induction ms with
  | nil => rfl
  | cons m ms ih => simp [successPointSeq, ih]

/-- C6: a worker invoked with the shared stop event already set returns
none immediately and performs no step at all — no molecule generation,
no optimizer call, no postprocessor call. -/
theorem C6_early_exit {M : Type} (config : ConfigManager) (env : WorkerEnv M)
    (h : env.stopSetAtEntry = true) :
    single_molecule_generator config env = (none, []) := by
  simp [single_molecule_generator, h]

/-- Witness for C6 at a concrete worker environment. -/
theorem C6_early_exit_witness :
    single_molecule_generator cfgPlain envStopped = (none, []) :=
  C6_early_exit cfgPlain envStopped rfl

/-- C7: a RuntimeError raised by the iterative optimization or by the
postprocessing step makes the worker hand back none (never an
exception, and never the pre-postprocess optimized molecule). -/
theorem C7_recoverable_errors_give_none {M : Type} (config : ConfigManager)
    (env : WorkerEnv M) :
    (∀ e, env.optimizeResult env.genMol = Except.error e →
      (single_molecule_generator config env).1 = none)
    ∧ (∀ m e, config.general.postprocess = true →
        env.optimizeResult env.genMol = Except.ok m →
        env.postprocessResult m = Except.error e →
        (single_molecule_generator config env).1 = none) := by
  constructor
  · intro e he
    by_cases hs : env.stopSetAtEntry <;> simp [single_molecule_generator, hs, he]
  · intro m e hpp hok hpe
    by_cases hs : env.stopSetAtEntry <;>
      simp [single_molecule_generator, hs, hok, hpp, hpe]

/-- Witness for C7: a failing optimization and a failing postprocessing
both yield none at concrete inputs. -/
theorem C7_recoverable_errors_give_none_witness :
    (single_molecule_generator cfgPlain envOptFails).1 = none
    ∧ (single_molecule_generator cfgPost envPostFails).1 = none :=
  ⟨(C7_recoverable_errors_give_none cfgPlain envOptFails).1 "refinement failed" rfl,
   (C7_recoverable_errors_give_none cfgPost envPostFails).2 7 "postprocessing failed"
     rfl rfl rfl⟩

/-- C5 counterexample: the is_set test and the set are two separate
operations, so with two workers interleaved test-test-set-set both
workers return a non-none result — the claimed at-most-one property
fails. -/
theorem C5_counterexample :
    winners (raceRun raceInit [0, 1, 0, 1]) = 2
    ∧ ¬ winners (raceRun raceInit [0, 1, 0, 1]) ≤ 1 := by
  decide

/-- C5 amended: a worker that observes the stop event set at its
success-point check returns none, and when the workers run their
check-then-set blocks without interleaving at most one worker of the
batch returns a non-none result. -/
theorem C5_amended_serialized {M : Type} (flag : Bool) (ms : List M) :
    (flag = true → (successPointSeq flag ms).2.countP Option.isSome = 0)
    ∧ (successPointSeq flag ms).2.countP Option.isSome ≤ 1 := by
  cases flag with
  | true =>
    refine ⟨fun _ => successPointSeq_true_none ms, ?_⟩
    rw [successPointSeq_true_none ms]
    omega
  | false =>
    constructor
    · intro h
      exact absurd h (by decide)
    · cases ms with
      | nil => simp [successPointSeq]
      | cons m ms => simp [successPointSeq, successPointSeq_true_none ms]

/-- Witness for C5 amended at a concrete batch. -/
theorem C5_amended_serialized_witness :
    (successPointSeq true [(1 : Nat), 2, 3]).2.countP Option.isSome = 0 :=
  (C5_amended_serialized true [(1 : Nat), 2, 3]).1 rfl

/-- A configuration that only asks for the config print-out. -/
def cfgPrintOnly : ConfigManager :=
  { general :=
    { verbosity := 0, print_config := true, postprocess := false,
      parallel := 1, num_molecules := 1, max_cycles := 1 } }

/-- C10: with print_config set, the generator prints the configuration
and returns (None, 0) at once; the whole event trace holds nothing but
the header print and the config print — no engine setup, no pool, no
warning. -/
theorem C10_print_config_early_return {M : Type} (config : ConfigManager)
    (cpu_count : Nat) (finishOrders : Nat → List Nat) (res : Nat → Nat → Option M)
    (h : config.general.print_config = true) :
    (generator config cpu_count finishOrders res).result = Except.ok (none, 0)
    ∧ GenEvent.printedConfig ∈ (generator config cpu_count finishOrders res).events
    ∧ ∀ e ∈ (generator config cpu_count finishOrders res).events,
        e = GenEvent.printedHeader ∨ e = GenEvent.printedConfig := by
  by_cases hv : config.general.verbosity > 0 <;>
    simp [generator, h, hv]

/-- Witness for C10 at a concrete configuration. -/
theorem C10_print_config_early_return_witness :
    (generator (M := Nat) cfgPrintOnly 4 (fun _ => []) (fun _ _ => some 0)).result
      = Except.ok (none, 0) :=
  (C10_print_config_early_return cfgPrintOnly 4 (fun _ => []) (fun _ _ => some 0) rfl).1

/-- Scanning a result list whose entries below index k are none and
whose entry at k is some m yields (k + 1, m). -/
lemma firstSuccess_spec {M : Type} (l : List (Option M)) :
    ∀ (k : Nat) (m : M), l[k]? = some (some m) → (∀ j, j < k → l[j]? = some none) →
      firstSuccess l = some (k + 1, m) := by
  induction l with
  | nil =>
    intro k m h _
    simp at h
  | cons a rs ih =>
    intro k m h hmin
    cases k with
    | zero =>
      simp at h
      rw [h]
      rfl
    | succ k =>
      have ha : a = none := by
        have h0 := hmin 0 (Nat.succ_pos k)
        simpa using h0
      subst ha
      have hr := ih k m (by simpa using h)
        (fun j hj => by simpa using hmin (j + 1) (Nat.succ_lt_succ hj))
      simp [firstSuccess, hr]

/-- C1: for every target, the coordinator accepts the result of the
lowest cycle index among the non-none results — the pool returns
results in cycle-index order whatever the wall-clock finish order
(finishOrder) was, and the selection loop takes the first non-None
entry, reporting cycles_needed = index + 1. -/
theorem C1_lowest_index_wins {M : Type} (finishOrder : List Nat) (res : Nat → Option M)
    (maxCycles k : Nat) (m : M) (hk : k < maxCycles) (hres : res k = some m)
    (hmin : ∀ j, j < k → res j = none) :
    firstSuccess (pool_starmap finishOrder res maxCycles) = some (k + 1, m) := by
  apply firstSuccess_spec
  · simp [pool_starmap, hk, hres]
  · intro j hj
    simp [pool_starmap, Nat.lt_trans hj hk, hmin j hj]

/-- Worker outcomes where only cycle index 1 succeeds. -/
def resOnlyOne : Nat → Option Nat :=
  fun j => if j = 1 then some 42 else none

/-- Witness for C1: cycle 1 is the lowest success, cycle 2 finished
first (finishOrder [2, 1, 0]), and the accepted pair is (2, 42). -/
theorem C1_lowest_index_wins_witness :
    firstSuccess (pool_starmap [2, 1, 0] resOnlyOne 3) = some (2, 42) :=
  C1_lowest_index_wins [2, 1, 0] resOnlyOne 3 1 42 (by decide) rfl
    (fun j hj => by
      have hj0 : j = 0 := by omega
      rw [hj0]
      rfl)

/-- C3: on a non-empty sequence with no lanthanide, the assigner
returns 0 unpaired electrons and a charge of the same parity as the
total electron count, drawn from {−1, +1} when that count is odd and
from {−2, 0, +2} when it is even. -/
theorem C3_standard_branch_parity (ati : List Nat) (seed : Nat)
    (hne : ati ≠ []) (hstd : ∀ a ∈ ati, isLanthanide a = false) :
    (set_random_charge ati seed).2 = 0
    ∧ ((nel ati : Int) - (set_random_charge ati seed).1) % 2 = 0
    ∧ (nel ati % 2 = 1 → (set_random_charge ati seed).1 ∈ ([-1, 1] : List Int))
    ∧ (nel ati % 2 = 0 → (set_random_charge ati seed).1 ∈ ([-2, 0, 2] : List Int)) := by
  have hany : ati.any isLanthanide = false := by
    rw [List.any_eq_false]
    intro a ha
    rw [hstd a ha]
    exact Bool.false_ne_true
  rcases Nat.mod_two_eq_zero_or_one (nel ati) with hn | hn
  · have hval : set_random_charge ati seed
        = (([-2, 0, 2] : List Int).getD (seed % 3) 0, 0) := by
      simp [set_random_charge, hany, hn]
    have h3 : seed % 3 = 0 ∨ seed % 3 = 1 ∨ seed % 3 = 2 := by omega
    have hc : (set_random_charge ati seed).1 ∈ ([-2, 0, 2] : List Int) := by
      rcases h3 with h | h | h <;> rw [hval, h] <;> decide
    have hcases : (set_random_charge ati seed).1 = -2
        ∨ (set_random_charge ati seed).1 = 0
        ∨ (set_random_charge ati seed).1 = 2 := by
      simpa using hc
    refine ⟨by rw [hval], ?_, fun hcontra => absurd hcontra (by omega), fun _ => hc⟩
    rcases hcases with h | h | h <;> rw [h] <;> omega
  · have hval : set_random_charge ati seed
        = (([-1, 1] : List Int).getD (seed % 2) 0, 0) := by
      simp [set_random_charge, hany, hn]
    have h2 : seed % 2 = 0 ∨ seed % 2 = 1 := Nat.mod_two_eq_zero_or_one seed
    have hc : (set_random_charge ati seed).1 ∈ ([-1, 1] : List Int) := by
      rcases h2 with h | h <;> rw [hval, h] <;> decide
    have hcases : (set_random_charge ati seed).1 = -1
        ∨ (set_random_charge ati seed).1 = 1 := by
      simpa using hc
    refine ⟨by rw [hval], ?_, fun _ => hc, fun hcontra => absurd hcontra (by omega)⟩
    rcases hcases with h | h <;> rw [h] <;> omega

/-- Witness for C3 on the test row B, N, H (0-based [4, 6, 0], odd
electron count). -/
theorem C3_standard_branch_parity_witness :
    (set_random_charge [4, 6, 0] 0).2 = 0
    ∧ ((nel [4, 6, 0] : Int) - (set_random_charge [4, 6, 0] 0).1) % 2 = 0
    ∧ (nel [4, 6, 0] % 2 = 1 → (set_random_charge [4, 6, 0] 0).1 ∈ ([-1, 1] : List Int))
    ∧ (nel [4, 6, 0] % 2 = 0 → (set_random_charge [4, 6, 0] 0).1 ∈ ([-2, 0, 2] : List Int)) :=
  C3_standard_branch_parity [4, 6, 0] 0 (by decide) (by decide)

/-- C4: when the sequence holds exactly one lanthanide a, the returned
unpaired-electron count is the lookup-table value of a, whatever the
other atoms are; the table takes the recorded values La(56) → 0,
Ce(57) → 1, Nd(59) → 3, Gd(63) → 7, Yb(69) → 1. -/
theorem C4_lanthanide_uhf_table_value (ati : List Nat) (seed a : Nat)
    (ha : a ∈ ati) (hla : isLanthanide a = true)
    (huniq : ati.countP isLanthanide = 1) :
    (set_random_charge ati seed).2 = lanthanide_uhf_table a
    ∧ lanthanide_uhf_table 56 = 0 ∧ lanthanide_uhf_table 57 = 1
    ∧ lanthanide_uhf_table 59 = 3 ∧ lanthanide_uhf_table 63 = 7
    ∧ lanthanide_uhf_table 69 = 1 := by
  refine ⟨?_, rfl, rfl, rfl, rfl, rfl⟩
  have hany : ati.any isLanthanide = true := List.any_eq_true.mpr ⟨a, ha, hla⟩
  have hfilter : ati.filter isLanthanide = [a] := by
    have hlen : (ati.filter isLanthanide).length = 1 := by
      rw [← List.countP_eq_length_filter]
      exact huniq
    have hmem : a ∈ ati.filter isLanthanide := List.mem_filter.mpr ⟨ha, hla⟩
    rcases List.length_eq_one.mp hlen with ⟨b, hb⟩
    rw [hb] at hmem ⊢
    simp only [List.mem_singleton] at hmem
    rw [hmem]
  simp [set_random_charge, hany, hfilter]

/-- Witness for C4 on the test row Nd, O, O, H (0-based [59, 7, 7, 0]),
whose unpaired-electron count is 3. -/
theorem C4_lanthanide_uhf_table_value_witness :
    (set_random_charge [59, 7, 7, 0] 0).2 = lanthanide_uhf_table 59
    ∧ lanthanide_uhf_table 56 = 0 ∧ lanthanide_uhf_table 57 = 1
    ∧ lanthanide_uhf_table 59 = 3 ∧ lanthanide_uhf_table 63 = 7
    ∧ lanthanide_uhf_table 69 = 1 :=
  C4_lanthanide_uhf_table_value [59, 7, 7, 0] 0 59 (by decide) (by decide) (by decide)

/-- A list matches at its own front, whatever follows. -/
lemma matchesAt_append {α : Type} [BEq α] [LawfulBEq α] (l t : List α) :
    matchesAt l (l ++ t) = true := by
  induction l with
  | nil => rfl
  | cons a l ih => simp [matchesAt, ih]

/-- A pattern occurs in any list that embeds it contiguously. -/
lemma occursIn_append {α : Type} [BEq α] [LawfulBEq α] (pre pat post : List α) :
    occursIn pat (pre ++ (pat ++ post)) = true := by
  induction pre with
  | nil =>
    cases pat with
    | nil => cases post <;> simp [occursIn, matchesAt]
    | cons p ps =>
      have h := matchesAt_append (p :: ps) post
      simp only [List.cons_append, List.nil_append] at h ⊢
      simp [occursIn, h]
  | cons c pre ih =>
    simp only [List.cons_append] at ih ⊢
    simp [occursIn, ih]

/-- A string occurring between two others is found by containsStr. -/
lemma containsStr_middle (s1 s2 s3 : String) :
    containsStr (s1 ++ s2 ++ s3) s2 = true := by
  unfold containsStr
  have h : (s1 ++ s2 ++ s3).toList = s1.toList ++ (s2.toList ++ s3.toList) := by
    show (s1 ++ s2 ++ s3).data = s1.data ++ (s2.data ++ s3.data)
    rw [String.data_append, String.data_append, List.append_assoc]
  rw [h]
  exact occursIn_append _ _ _

/-- The batch restores the verbosity field of the config: whatever was
saved is written back (main.py lines 97-99). -/
lemma runBatch_verbosityAfter {M : Type} (numCores : Nat) (v : Int) (maxCycles : Nat)
    (finishOrder : List Nat) (res : Nat → Option M) (target : Nat) :
    (runBatch numCores v maxCycles finishOrder res target).verbosityAfter = v := by
  by_cases h : numCores > 1 ∧ v > 0 <;> simp [runBatch, h]

/-- The accepted result of a batch is the first non-None entry of the
pool results. -/
lemma runBatch_accepted {M : Type} (numCores : Nat) (v : Int) (maxCycles : Nat)
    (finishOrder : List Nat) (res : Nat → Option M) (target : Nat) :
    (runBatch numCores v maxCycles finishOrder res target).accepted
      = firstSuccess (pool_starmap finishOrder res maxCycles) := by
  by_cases h : numCores > 1 ∧ v > 0 <;> simp [runBatch, h]

/-- Every event a batch emits is benign for the claims below: it is
never the clamp warning, any pool-creation event carries the batch's
worker count, and any verbosity write writes 0 and happens only in the
parallel-with-verbosity case. -/
lemma runBatch_events_shape {M : Type} (numCores : Nat) (v : Int) (maxCycles : Nat)
    (finishOrder : List Nat) (res : Nat → Option M) (target : Nat) (e : GenEvent)
    (he : e ∈ (runBatch numCores v maxCycles finishOrder res target).events) :
    isClampWarning e = false
    ∧ (∀ d t2 v2, e = GenEvent.poolCreated d t2 v2 → d = numCores)
    ∧ (∀ x, e = GenEvent.verbositySetTo x → x = 0 ∧ numCores > 1 ∧ v > 0) := by
  by_cases hcond : numCores > 1 ∧ v > 0
  · simp [runBatch, hcond] at he
    rcases he with rfl | rfl | rfl
    · refine ⟨rfl, ?_, ?_⟩
      · intro d t2 v2 h
        exact GenEvent.noConfusion h
      · intro x h
        injection h with hx
        exact ⟨hx.symm, hcond⟩
    · refine ⟨rfl, ?_, ?_⟩
      · intro d t2 v2 h
        injection h with h1 h2 h3
        exact h1.symm
      · intro x h
        exact GenEvent.noConfusion h
    · refine ⟨rfl, ?_, ?_⟩
      · intro d t2 v2 h
        exact GenEvent.noConfusion h
      · intro x h
        exact GenEvent.noConfusion h
  · simp [runBatch, hcond] at he
    subst he
    refine ⟨rfl, ?_, ?_⟩
    · intro d t2 v2 h
      injection h with h1 h2 h3
      exact h1.symm
    · intro x h
      exact GenEvent.noConfusion h

/-- The target loop leaves the verbosity field of the config at the
value it had when the loop started. -/
lemma runTargets_finalVerbosity {M : Type} (numCores maxCycles : Nat)
    (fo : Nat → List Nat) (res : Nat → Nat → Option M) :
    ∀ (n t : Nat) (v : Int), (runTargets numCores maxCycles fo res v t n).2.2 = v := by
  intro n
  induction n with
  | zero => intro t v; rfl
  | succ n ih =>
    intro t v
    rcases hacc : (runBatch (M := M) numCores v maxCycles (fo t) (res t) t).accepted
      with _ | p
    · simp [runTargets, hacc, runBatch_verbosityAfter]
    · simp [runTargets, hacc, runBatch_verbosityAfter, ih]

/-- Every event the target loop emits is benign in the sense of
runBatch_events_shape. -/
lemma runTargets_events_shape {M : Type} (numCores maxCycles : Nat)
    (fo : Nat → List Nat) (res : Nat → Nat → Option M) :
    ∀ (n t : Nat) (v : Int) (e : GenEvent),
      e ∈ (runTargets numCores maxCycles fo res v t n).2.1 →
      isClampWarning e = false
      ∧ (∀ d t2 v2, e = GenEvent.poolCreated d t2 v2 → d = numCores)
      ∧ (∀ x, e = GenEvent.verbositySetTo x → x = 0 ∧ numCores > 1 ∧ v > 0) := by
  intro n
  induction n with
  | zero =>
    intro t v e he
    simp [runTargets] at he
  | succ n ih =>
    intro t v e he
    rcases hacc : (runBatch (M := M) numCores v maxCycles (fo t) (res t) t).accepted
      with _ | p
    · simp only [runTargets, hacc] at he
      exact runBatch_events_shape numCores v maxCycles (fo t) (res t) t e he
    · simp only [runTargets, hacc] at he
      rw [runBatch_verbosityAfter] at he
      rcases List.mem_append.mp he with h | h
      · exact runBatch_events_shape numCores v maxCycles (fo t) (res t) t e h
      · exact ih (t + 1) v e h

/-- If the first k targets starting at t each have a successful cycle
and target t + k has none, the loop fails with the exhausted error for
target t + k. -/
lemma runTargets_error {M : Type} (numCores maxCycles : Nat) (fo : Nat → List Nat)
    (res : Nat → Nat → Option M) :
    ∀ (n k t : Nat) (v : Int),
      k < n →
      (∀ j, j < k →
        firstSuccess (pool_starmap (fo (t + j)) (res (t + j)) maxCycles) ≠ none) →
      firstSuccess (pool_starmap (fo (t + k)) (res (t + k)) maxCycles) = none →
      (runTargets numCores maxCycles fo res v t n).1
        = Except.error (exhausted_error_message (t + k)) := by
  intro n
  induction n with
  | zero =>
    intro k t v hk _ _
    exact absurd hk (Nat.not_lt_zero k)
  | succ n ih =>
    intro k t v hk hsucc hfail
    cases k with
    | zero =>
      have hacc : (runBatch (M := M) numCores v maxCycles (fo t) (res t) t).accepted
          = none := by
        rw [runBatch_accepted]
        simpa using hfail
      simp [runTargets, hacc]
    | succ k =>
      have hs0 : firstSuccess (pool_starmap (fo t) (res t) maxCycles) ≠ none := by
        have h := hsucc 0 (Nat.succ_pos k)
        simpa using h
      rcases hacc : (runBatch (M := M) numCores v maxCycles (fo t) (res t) t).accepted
        with _ | p
      · rw [runBatch_accepted] at hacc
        exact absurd hacc hs0
      · have hrest := ih k (t + 1) v (by omega)
          (fun j hj => by
            have h := hsucc (j + 1) (by omega)
            have e1 : t + (j + 1) = t + 1 + j := by omega
            rw [e1] at h
            exact h)
          (by
            have e1 : t + (k + 1) = t + 1 + k := by omega
            rw [e1] at hfail
            exact hfail)
        have e2 : t + 1 + k = t + (k + 1) := by omega
        rw [e2] at hrest
        simp [runTargets, hacc, runBatch_verbosityAfter, hrest, Except.map]

/-- The event trace of a generation run (print_config off), laid out
piece by piece in program order. -/
lemma generator_events_eq {M : Type} (config : ConfigManager) (cpu : Nat)
    (fo : Nat → List Nat) (res : Nat → Nat → Option M)
    (hpc : config.general.print_config = false) :
    (generator (M := M) config cpu fo res).events
      = (if config.general.verbosity > 0 then [GenEvent.printedHeader] else [])
        ++ ([GenEvent.engineSetup false]
          ++ (if config.general.postprocess then [GenEvent.engineSetup true] else []))
        ++ (if config.general.verbosity > 0 then [GenEvent.printedConfig] else [])
        ++ (if config.general.parallel > cpu then [GenEvent.clampWarning] else [])
        ++ (if min cpu config.general.parallel > 1 ∧ config.general.verbosity > 0
            then [GenEvent.verbosityWarning] else [])
        ++ (runTargets (min cpu config.general.parallel) config.general.max_cycles
            fo res config.general.verbosity 0 config.general.num_molecules).2.1 := by
  simp [generator, hpc]

/-- A configuration with all cycles doomed: one target, three cycles. -/
def cfgExhaust : ConfigManager :=
  { general :=
    { verbosity := 0, print_config := false, postprocess := false,
      parallel := 1, num_molecules := 1, max_cycles := 3 } }

/-- C2 counterexample: when every worker returns none the raised error
names the molecule target ("molecule 1") but not the exhausted cycle
count — the configured max_cycles is 3 and "3" does not occur in the
message. -/
theorem C2_counterexample :
    (generator (M := Nat) cfgExhaust 4 (fun _ => []) (fun _ _ => none)).result
      = Except.error (exhausted_error_message 0)
    ∧ containsStr (exhausted_error_message 0) (toString cfgExhaust.general.max_cycles)
      = false
    ∧ containsStr (exhausted_error_message 0) (toString (0 + 1)) = true := by
  refine ⟨rfl, ?_, ?_⟩ <;> decide

/-- C2 amended: if all earlier targets have a successful cycle and every
worker of target k returns none, the run fails with a fatal error whose
message names the 1-based molecule target k + 1 and states that all
cycles failed; no molecule list is returned. -/
theorem C2_amended_exhausted {M : Type} (config : ConfigManager) (cpu : Nat)
    (fo : Nat → List Nat) (res : Nat → Nat → Option M)
    (hpc : config.general.print_config = false) (k : Nat)
    (hk : k < config.general.num_molecules)
    (hsucc : ∀ j, j < k →
      firstSuccess (pool_starmap (fo j) (res j) config.general.max_cycles) ≠ none)
    (hfail : firstSuccess (pool_starmap (fo k) (res k) config.general.max_cycles)
      = none) :
    (generator config cpu fo res).result = Except.error (exhausted_error_message k)
    ∧ containsStr (exhausted_error_message k) (toString (k + 1)) = true := by
  constructor
  · have herr := runTargets_error (M := M) (min cpu config.general.parallel)
      config.general.max_cycles fo res config.general.num_molecules k 0
      config.general.verbosity hk
      (fun j hj => by simpa using hsucc j hj)
      (by simpa using hfail)
    simp only [Nat.zero_add] at herr
    simp [generator, hpc, herr, Except.map]
  · unfold exhausted_error_message
    exact containsStr_middle _ _ _

/-- Witness for C2 amended at the concrete all-none run. -/
theorem C2_amended_exhausted_witness :
    (generator (M := Nat) cfgExhaust 4 (fun _ => []) (fun _ _ => none)).result
      = Except.error (exhausted_error_message 0)
    ∧ containsStr (exhausted_error_message 0) (toString (0 + 1)) = true :=
  C2_amended_exhausted cfgExhaust 4 (fun _ => []) (fun _ _ => none) rfl 0 (by decide)
    (fun j hj => absurd hj (by omega)) rfl

/-- A print-and-exit configuration that also over-requests parallelism. -/
def cfgPrintClamp : ConfigManager :=
  { general :=
    { verbosity := 0, print_config := true, postprocess := false,
      parallel := 8, num_molecules := 1, max_cycles := 1 } }

/-- C8 counterexample: with print_config set, requested parallelism 8 on
4 available units triggers no clamp warning at all — the generator
returns before reaching the pool setup, so the claimed
warning-iff-excess fails for this configuration. -/
theorem C8_counterexample :
    cfgPrintClamp.general.parallel > 4
    ∧ (generator (M := Nat) cfgPrintClamp 4 (fun _ => []) (fun _ _ => some 0)).events.countP
        isClampWarning = 0 := by
  decide

/-- A generation configuration that over-requests parallelism. -/
def cfgClamp : ConfigManager :=
  { general :=
    { verbosity := 0, print_config := false, postprocess := false,
      parallel := 8, num_molecules := 1, max_cycles := 1 } }

/-- C8 amended: in every run that enters generation (print_config off),
each worker pool is created with degree min(available cores, configured
parallelism), and the clamp warning is emitted exactly once when the
configured parallelism exceeds the available cores and never
otherwise. -/
theorem C8_amended_clamp {M : Type} (config : ConfigManager) (cpu : Nat)
    (fo : Nat → List Nat) (res : Nat → Nat → Option M)
    (hpc : config.general.print_config = false) :
    ((generator (M := M) config cpu fo res).events.countP isClampWarning
      = if config.general.parallel > cpu then 1 else 0)
    ∧ (∀ d t2 v2,
        GenEvent.poolCreated d t2 v2 ∈ (generator (M := M) config cpu fo res).events →
        d = min cpu config.general.parallel) := by
  have hshape := runTargets_events_shape (M := M) (min cpu config.general.parallel)
    config.general.max_cycles fo res config.general.num_molecules 0
    config.general.verbosity
  constructor
  · have hloop : (runTargets (M := M) (min cpu config.general.parallel)
        config.general.max_cycles fo res config.general.verbosity 0
        config.general.num_molecules).2.1.countP isClampWarning = 0 := by
      rw [List.countP_eq_zero]
      intro e he
      rw [(hshape e he).1]
      exact Bool.false_ne_true
    rw [generator_events_eq config cpu fo res hpc]
    have hA : List.countP isClampWarning
        (if config.general.verbosity > 0 then [GenEvent.printedHeader] else []) = 0 := by
      by_cases h : config.general.verbosity > 0 <;> simp [h, isClampWarning]
    have hB : List.countP isClampWarning
        ([GenEvent.engineSetup false]
          ++ (if config.general.postprocess then [GenEvent.engineSetup true] else []))
        = 0 := by
      by_cases h : config.general.postprocess <;>
        simp [h, isClampWarning, List.countP_cons]
    have hC : List.countP isClampWarning
        (if config.general.verbosity > 0 then [GenEvent.printedConfig] else []) = 0 := by
      by_cases h : config.general.verbosity > 0 <;> simp [h, isClampWarning]
    have hD : List.countP isClampWarning
        (if config.general.parallel > cpu then [GenEvent.clampWarning] else [])
        = if config.general.parallel > cpu then 1 else 0 := by
      by_cases h : config.general.parallel > cpu <;> simp [h, isClampWarning]
    have hE : List.countP isClampWarning
        (if min cpu config.general.parallel > 1 ∧ config.general.verbosity > 0
          then [GenEvent.verbosityWarning] else []) = 0 := by
      by_cases h : min cpu config.general.parallel > 1 ∧ config.general.verbosity > 0
      · rw [if_pos h]
        rfl
      · rw [if_neg h]
        rfl
    simp only [List.countP_append, hA, hB, hC, hD, hE, hloop]
    simp
  · intro d t2 v2 hmem
    rw [generator_events_eq config cpu fo res hpc] at hmem
    by_cases h1 : config.general.verbosity > 0 <;>
    by_cases h2 : config.general.postprocess <;>
    by_cases h3 : config.general.parallel > cpu <;>
    by_cases h4 : min cpu config.general.parallel > 1 ∧ config.general.verbosity > 0 <;>
      simp [h1, h2, h3, h4] at hmem <;>
      exact ((hshape _ hmem).2.1 d t2 v2 rfl)

/-- Witness for C8 amended: parallelism 8 on 4 cores emits the clamp
warning exactly once. -/
theorem C8_amended_clamp_witness :
    (generator (M := Nat) cfgClamp 4 (fun _ => []) (fun _ _ => some 0)).events.countP
      isClampWarning = 1 := by
  have h := (C8_amended_clamp (M := Nat) cfgClamp 4 (fun _ => []) (fun _ _ => some 0)
    rfl).1
  simpa using h

/-- A verbose configuration running two workers in parallel. -/
def cfgVerbosePar : ConfigManager :=
  { general :=
    { verbosity := 1, print_config := false, postprocess := false,
      parallel := 2, num_molecules := 1, max_cycles := 1 } }

/-- C9 counterexample: with verbosity 1 and two cores the coordinator
writes 0 into the configuration's verbosity field during the run — the
trace holds the write event and shows the pool ran with verbosity 0
although the configuration started with verbosity 1. -/
theorem C9_counterexample :
    cfgVerbosePar.general.verbosity = 1
    ∧ GenEvent.verbositySetTo 0
      ∈ (generator (M := Nat) cfgVerbosePar 2 (fun _ => []) (fun _ _ => some 0)).events
    ∧ GenEvent.poolCreated 2 0 0
      ∈ (generator (M := Nat) cfgVerbosePar 2 (fun _ => []) (fun _ _ => some 0)).events := by
  decide

/-- C9 amended: the only configuration field the run touches is
general.verbosity — the coordinator writes 0 into it only while a
parallel batch runs with verbosity enabled, and the field is back at its
initial value by the end of the run; workers mutate nothing. -/
theorem C9_amended_verbosity_restored {M : Type} (config : ConfigManager) (cpu : Nat)
    (fo : Nat → List Nat) (res : Nat → Nat → Option M) :
    (generator (M := M) config cpu fo res).finalVerbosity = config.general.verbosity
    ∧ ∀ x, GenEvent.verbositySetTo x ∈ (generator (M := M) config cpu fo res).events →
        x = 0 ∧ min cpu config.general.parallel > 1 ∧ config.general.verbosity > 0 := by
  have hshape := runTargets_events_shape (M := M) (min cpu config.general.parallel)
    config.general.max_cycles fo res config.general.num_molecules 0
    config.general.verbosity
  by_cases hpc : config.general.print_config
  · constructor
    · by_cases h1 : config.general.verbosity > 0 <;> simp [generator, hpc, h1]
    · intro x hx
      by_cases h1 : config.general.verbosity > 0 <;> simp [generator, hpc, h1] at hx
  · constructor
    · have hfin := runTargets_finalVerbosity (M := M) (min cpu config.general.parallel)
        config.general.max_cycles fo res config.general.num_molecules 0
        config.general.verbosity
      simp [generator, hpc, hfin]
    · intro x hx
      rw [generator_events_eq config cpu fo res (by simpa using hpc)] at hx
      by_cases h1 : config.general.verbosity > 0 <;>
      by_cases h2 : config.general.postprocess <;>
      by_cases h3 : config.general.parallel > cpu <;>
      by_cases h4 : min cpu config.general.parallel > 1 ∧ config.general.verbosity > 0 <;>
        simp [h1, h2, h3, h4] at hx <;>
        exact ((hshape _ hx).2.2 x rfl)

/-- Witness for C9 amended: the verbosity field ends the concrete
parallel verbose run at its initial value 1. -/
theorem C9_amended_verbosity_restored_witness :
    (generator (M := Nat) cfgVerbosePar 2 (fun _ => []) (fun _ _ => some 0)).finalVerbosity
      = cfgVerbosePar.general.verbosity :=
  (C9_amended_verbosity_restored cfgVerbosePar 2 (fun _ => []) (fun _ _ => some 0)).1

end MindlessGen
